import Mathlib

set_option maxHeartbeats 1000000

/-!
Verification of the HiTrade frontend core (src/min-trade-frontend/src/App.tsx)
against its natural-language specification.  The client-side state and
presentation logic is embedded shallowly: JS numbers become rationals,
nullable fields become options, component render output becomes explicit
descriptor values, and the React effect and event handlers become explicit
state-transition functions.
-/

namespace HiTrade

/-- Display density (App.tsx ViewMode): simple or advanced. -/
inductive ViewMode
  | simple
  | advanced
  deriving DecidableEq

/-- FundMetrics interface (App.tsx lines 48-58); every field is nullable. -/
structure FundMetrics where
  perf_1w : Option ℚ
  perf_1m : Option ℚ
  perf_3m : Option ℚ
  perf_1y : Option ℚ
  perf_3y : Option ℚ
  vol_60d : Option ℚ
  sharpe_ratio : Option ℚ
  sortino_ratio : Option ℚ
  max_drawdown : Option ℚ
  deriving DecidableEq

/-- Priority values of a fund (App.tsx line 74). -/
inductive Priority
  | high
  | medium
  | low
  deriving DecidableEq

/-- Fund interface (App.tsx lines 60-81). -/
structure Fund where
  isin : String
  name : String
  management_company : Option String
  sri : Nat
  asset_class : String
  description : Option String
  available_platforms : List String
  is_standard_isin : Bool
  label : Option String
  metrics : Option FundMetrics
  fundamental_score : Option ℚ
  top_week_score : Option ℚ
  priority : Option Priority
  confidence : Option ℚ
  reasoning : Option String
  quality_score : Option ℚ
  valuation_score : Option ℚ
  stability_score : Option ℚ
  consensus_level : Option String
  deriving DecidableEq

/-- JS truthiness of an optional string: null and the empty string are falsy. -/
def truthyStr (o : Option String) : Option String :=
  match o with
  | some s => if s = "" then none else some s
  | none => none

/-- One sub-score row of the Profil HiTrade block: its label and, when the
value is non-null, the raw value paired with the clamped bar width. -/
structure BarRow where
  label : String
  value : Option (ℚ × ℚ)
  deriving DecidableEq

/-- Render output of the BrainProfile component: either the marker shown when
all three sub-scores are null, or the three bar rows. -/
inductive BrainView
  | unavailable
  | bars (rows : List BarRow)
  deriving DecidableEq

/-- A single bar row: the bar width rendered for a non-null value is
Math.min(100, Math.max(0, value)) (App.tsx line 236). -/
def barRow (l : String) (v : Option ℚ) : BarRow :=
  { label := l, value := v.map (fun x => (x, min 100 (max 0 x))) }

/-- Embedding of the BrainProfile component (App.tsx lines 166-258): when
quality, valuation and stability are all null the Donnees indisponibles
marker is shown; otherwise the three labelled rows, each N/A when null. -/
def brainProfile (quality valuation stability : Option ℚ) : BrainView :=
  if quality = none ∧ valuation = none ∧ stability = none then
    BrainView.unavailable
  else
    BrainView.bars
      [barRow "Gestion" quality, barRow "Valo" valuation, barRow "Stabilite" stability]

/-- Render output of the PerformanceStrip component: the marker shown when the
metrics bundle is absent or the checked fields are all null, or the list of
labelled slots (a null slot renders as N/A). -/
inductive PerfView
  | unavailable
  | slots (items : List (String × Option ℚ))
  deriving DecidableEq

/-- The performance items built per view mode (App.tsx lines 304-314); note
that the advanced list holds only the four return fields, not volatility. -/
def perfItems (m : FundMetrics) (mode : ViewMode) : List (String × Option ℚ) :=
  match mode with
  | ViewMode.simple => [("1M", m.perf_1m), ("1A", m.perf_1y)]
  | ViewMode.advanced =>
      [("1S", m.perf_1w), ("1M", m.perf_1m), ("1A", m.perf_1y), ("3A", m.perf_3y)]

/-- Embedding of the PerformanceStrip component (App.tsx lines 293-354): the
hasAnyPerf guard inspects only the mode's perf items; when it fails the
Performances indisponibles marker is shown; otherwise the items are shown,
with an extra volatility slot appended in advanced mode. -/
def performanceStrip (metrics : Option FundMetrics) (mode : ViewMode) : PerfView :=
  match metrics with
  | none => PerfView.unavailable
  | some m =>
      if (perfItems m mode).any (fun it => it.2.isSome) then
        PerfView.slots (perfItems m mode ++
          (match mode with
           | ViewMode.advanced => [("Vol", m.vol_60d)]
           | ViewMode.simple => []))
      else PerfView.unavailable

/-- The labels of the slots of a strip, when slots are shown at all. -/
def stripLabels (v : PerfView) : Option (List String) :=
  match v with
  | PerfView.unavailable => none
  | PerfView.slots items => some (items.map Prod.fst)

/-- The field labels the spec selects for each mode. -/
def modeLabels (mode : ViewMode) : List String :=
  match mode with
  | ViewMode.simple => ["1M", "1A"]
  | ViewMode.advanced => ["1S", "1M", "1A", "3A", "Vol"]

/-- Highlight tier of a fund card. -/
inductive Tier
  | gold
  | silver
  | bronze
  | none
  deriving DecidableEq

/-- The top-rank styling of FundCard (App.tsx lines 361-373): rank 1 is the
amber (gold) treatment, rank 2 the sky (silver) one, rank 3 the violet
(bronze) one, and every other rank gets no highlight. -/
def fundCardTier (rank : Option Nat) : Tier :=
  match rank with
  | some 1 => Tier.gold
  | some 2 => Tier.silver
  | some 3 => Tier.bronze
  | _ => Tier.none

/-- The advanced-details zone of a fund card (App.tsx lines 451-502): each
line is shown only when its datum is non-null (reasoning and management
company by JS truthiness). -/
structure DetailsView where
  sharpe : Option ℚ
  sortino : Option ℚ
  maxDrawdown : Option ℚ
  confidence : Option ℚ
  reasoning : Option String
  management_company : Option String
  deriving DecidableEq

/-- Render output of the FundCard component. -/
structure FundCardView where
  tier : Tier
  rankLabel : Option Nat
  name : String
  isin : String
  scoreDisplay : Option ℚ
  sriBadge : Nat
  assetClassBadge : String
  priorityBadge : Option Priority
  brain : BrainView
  perf : PerfView
  confidenceSimpleRow : Option ℚ
  details : Option DetailsView
  deriving DecidableEq

/-- Embedding of the FundCard component (App.tsx lines 357-520). -/
def fundCard (f : Fund) (rank : Option Nat) (mode : ViewMode) (expanded : Bool) :
    FundCardView :=
  { tier := fundCardTier rank
    rankLabel := rank
    name := f.name
    isin := f.isin
    scoreDisplay := f.fundamental_score
    sriBadge := f.sri
    assetClassBadge := f.asset_class
    priorityBadge := f.priority
    brain := brainProfile f.quality_score f.valuation_score f.stability_score
    perf := performanceStrip f.metrics mode
    confidenceSimpleRow := if mode = ViewMode.simple then f.confidence else none
    details :=
      if mode = ViewMode.advanced ∨ expanded then
        some { sharpe := f.metrics.bind FundMetrics.sharpe_ratio
               sortino := f.metrics.bind FundMetrics.sortino_ratio
               maxDrawdown := f.metrics.bind FundMetrics.max_drawdown
               confidence := f.confidence
               reasoning := truthyStr f.reasoning
               management_company := truthyStr f.management_company }
      else Option.none }

/-- A wizard preset (App.tsx lines 532-560): its id and the sri and horizon
it applies. -/
structure Preset where
  id : String
  sri : Nat
  horizon : String
  deriving DecidableEq

/-- The Prudent preset: sri 2, short horizon. -/
def prudent : Preset := { id := "prudent", sri := 2, horizon := "short" }

/-- The Equilibre preset: sri 4, medium horizon. -/
def equilibre : Preset := { id := "equilibre", sri := 4, horizon := "medium" }

/-- The Dynamique preset: sri 6, long horizon. -/
def dynamique : Preset := { id := "dynamique", sri := 6, horizon := "long" }

/-- The presets list as configured in the wizard. -/
def presets : List Preset := [prudent, equilibre, dynamique]

/-- State of the PortfolioWizard component (App.tsx lines 522-529): the
targetSri field mirrors the number[] slider value. -/
structure WizardState where
  step : Nat
  amount : String
  horizon : String
  targetSri : List Nat
  loading : Bool
  error : Option String
  selectedPreset : Option String
  deriving DecidableEq

/-- The wizard's initial state (App.tsx lines 523-529). -/
def initialWizard : WizardState :=
  { step := 1, amount := "100000", horizon := "medium", targetSri := [4],
    loading := false, error := none, selectedPreset := none }

/-- Embedding of handlePresetSelect (App.tsx lines 562-566): one click sets
the preset id, the slider value and the horizon together. -/
def handlePresetSelect (p : Preset) (s : WizardState) : WizardState :=
  { s with selectedPreset := some p.id, targetSri := [p.sri], horizon := p.horizon }

/-- Embedding of the slider onValueChange handler (App.tsx line 705): sets the
risk value and clears the selected preset; nothing else changes. -/
def setRiskManual (v : List Nat) (s : WizardState) : WizardState :=
  { s with targetSri := v, selectedPreset := none }

/-- Embedding of the amount input onChange handler (App.tsx line 629). -/
def setAmount (a : String) (s : WizardState) : WizardState :=
  { s with amount := a }

/-- Embedding of the horizon select onValueChange handler (App.tsx line 648). -/
def setHorizonSel (h : String) (s : WizardState) : WizardState :=
  { s with horizon := h }

/-- Decimal value of a digit list. -/
def digitsVal (cs : List Char) : Nat :=
  cs.foldl (fun acc c => acc * 10 + c.toNat - 48) 0

/-- Model of JS parseFloat restricted to plain decimal literals: an optional
sign, digits, an optional fractional part; trailing garbage is ignored as
parseFloat ignores it, and a string with no leading numeric prefix (such as
the empty string) gives NaN, modelled as none.  Exponent syntax is not
modelled; no amount string in the claims uses it. -/
def parseFloatQ (s : String) : Option ℚ :=
  let cs := s.toList
  let signAndRest : Bool × List Char :=
    match cs with
    | '-' :: t => (true, t)
    | '+' :: t => (false, t)
    | _ => (false, cs)
  let intPart := signAndRest.2.takeWhile Char.isDigit
  let rest := signAndRest.2.dropWhile Char.isDigit
  let fracPart : List Char :=
    match rest with
    | '.' :: t => t.takeWhile Char.isDigit
    | _ => []
  if intPart = [] ∧ fracPart = [] then none
  else
    let mag : ℚ := (digitsVal intPart : ℚ) + (digitsVal fracPart : ℚ) / (10 ^ fracPart.length : ℚ)
    some (if signAndRest.1 then -mag else mag)

/-- The JSON body the submission posts (App.tsx lines 576-581). -/
structure SuggestRequest where
  amount : Option ℚ
  horizon : String
  target_sri : Option Nat
  sri_tolerance : Nat
  deriving DecidableEq

/-- The request body handleSubmit builds from the wizard state (App.tsx lines
576-581): the amount string run through parseFloat, the horizon, the first
slider value, and the constant tolerance 1. -/
def suggestRequestOf (s : WizardState) : SuggestRequest :=
  { amount := parseFloatQ s.amount, horizon := s.horizon,
    target_sri := s.targetSri.head?, sri_tolerance := 1 }

/-- FundAllocation interface (App.tsx lines 83-87). -/
structure FundAllocation where
  fund : Fund
  allocation_percent : ℚ
  amount_eur : ℚ
  deriving DecidableEq

/-- PortfolioSuggestion interface (App.tsx lines 89-99); the asset-class
record is modelled as its entry list. -/
structure PortfolioSuggestion where
  allocations : List FundAllocation
  total_amount : ℚ
  average_sri : ℚ
  num_funds : Nat
  asset_class_distribution : List (String × ℚ)
  explanation : String
  average_confidence : Option ℚ
  consensus_summary : Option String
  deriving DecidableEq

/-- Outcome of a network request: a parsed successful response, a non-ok
response, or a failure of the request itself (a rejected fetch promise). -/
inductive FetchResult (α : Type)
  | ok (data : α)
  | httpError
  | networkFailure
  deriving DecidableEq

/-- The generic localized message handleSubmit records on any failure
(App.tsx line 589). -/
def genericSubmitError : String := "Erreur lors de la generation du portefeuille"

/-- Embedding of handleSubmit response handling (App.tsx lines 568-593): an ok
response hands the suggestion to onComplete (second component some), both a
non-ok response and a network failure land in the same catch which records
the generic message; loading is cleared either way and no other field is
touched, so no retry happens until submit is invoked again. -/
def handleSubmitResult (s : WizardState) (r : FetchResult PortfolioSuggestion) :
    WizardState × Option PortfolioSuggestion :=
  match r with
  | FetchResult.ok d => ({ s with loading := false, error := none }, some d)
  | FetchResult.httpError =>
      ({ s with loading := false, error := some genericSubmitError }, none)
  | FetchResult.networkFailure =>
      ({ s with loading := false, error := some genericSubmitError }, none)

/-- Outcome of the back button: the wizard is cancelled or stays open. -/
inductive NavOutcome
  | closed
  | stay (s : WizardState)
  deriving DecidableEq

/-- The back button (App.tsx lines 727-734): at step 1 it invokes onClose,
otherwise it goes one step back. -/
def handleBack (s : WizardState) : NavOutcome :=
  if s.step = 1 then NavOutcome.closed else NavOutcome.stay { s with step := s.step - 1 }

/-- The next button (App.tsx lines 736-743): rendered only while step < 3 and
advancing unconditionally when clicked; none means the button is absent. -/
def handleNext (s : WizardState) : Option WizardState :=
  if s.step < 3 then some { s with step := s.step + 1 } else none

/-- The user-driven wizard events. -/
inductive WizardEvent
  | next
  | back
  | preset (p : Preset)
  | risk (v : List Nat)
  | amountEdit (a : String)
  | horizonSel (h : String)
  | submitDone (r : FetchResult PortfolioSuggestion)

/-- One wizard event applied to a state; none means the wizard closed.  A next
click at step 3 cannot happen (the button is not rendered) and is a no-op. -/
def wizardStep (s : WizardState) (e : WizardEvent) : Option WizardState :=
  match e with
  | WizardEvent.next => some (if s.step < 3 then { s with step := s.step + 1 } else s)
  | WizardEvent.back =>
      match handleBack s with
      | NavOutcome.closed => none
      | NavOutcome.stay t => some t
  | WizardEvent.preset p => some (handlePresetSelect p s)
  | WizardEvent.risk v => some (setRiskManual v s)
  | WizardEvent.amountEdit a => some (setAmount a s)
  | WizardEvent.horizonSel h => some (setHorizonSel h s)
  | WizardEvent.submitDone r => some (handleSubmitResult s r).1

/-- A sequence of wizard events run from a state; once the wizard closes the
remaining events do not apply. -/
def wizardRun (s : WizardState) : List WizardEvent → Option WizardState
  | [] => some s
  | e :: t =>
      match wizardStep s e with
      | none => none
      | some u => wizardRun u t

/-- Stats interface (App.tsx lines 101-107). -/
structure Stats where
  total_funds : Nat
  standard_isin_funds : Nat
  special_funds : Nat
  sri_distribution : List (String × Nat)
  asset_class_distribution : List (String × Nat)
  deriving DecidableEq

/-- Embedding of the startup fetchData (App.tsx lines 913-938).  The two
requests are awaited jointly; the joint await throws as soon as either
request fails at the network level, landing in the catch with nothing
applied.  Only when both requests complete is each body applied
independently, guarded by its own ok flag. -/
def fetchData (topRes : FetchResult (List Fund)) (statsRes : FetchResult Stats) :
    Option (List Fund) × Option Stats :=
  match topRes, statsRes with
  | FetchResult.networkFailure, _ => (none, none)
  | _, FetchResult.networkFailure => (none, none)
  | FetchResult.ok tops, FetchResult.ok st => (some tops, some st)
  | FetchResult.ok tops, FetchResult.httpError => (some tops, none)
  | FetchResult.httpError, FetchResult.ok st => (none, some st)
  | FetchResult.httpError, FetchResult.httpError => (none, none)

/-- App-level state relevant to the ranked-list fetch (App.tsx lines 902-956).
prevRankedDeps records the dependency pair the ranked effect last saw;
rankedFetchCount, rankedInFlight and rankedLoaded are history counters (how
many requests were issued, how many are outstanding, whether a successful
response has been applied) and are never read by the transition logic, which
reads only activeTab and rankedFunds as the code does. -/
structure AppState where
  activeTab : String
  rankedFunds : List Fund
  prevRankedDeps : String × Nat
  rankedFetchCount : Nat
  rankedInFlight : Nat
  rankedLoaded : Bool
  deriving DecidableEq

/-- Re-evaluation of the ranked-list effect (App.tsx lines 952-956) after a
render: the effect body runs exactly when the dependency pair changed since
the previous render, and issues the fetch when the ranked tab is active and
the list is empty. -/
def runRankedEffect (s : AppState) : AppState :=
  if (s.activeTab, s.rankedFunds.length) = s.prevRankedDeps then s
  else if s.activeTab = "ranked" ∧ s.rankedFunds.length = 0 then
    { s with prevRankedDeps := (s.activeTab, s.rankedFunds.length),
             rankedFetchCount := s.rankedFetchCount + 1,
             rankedInFlight := s.rankedInFlight + 1 }
  else { s with prevRankedDeps := (s.activeTab, s.rankedFunds.length) }

/-- App events touching the ranked list: a tab activation, or the completion
of a ranked fetch. -/
inductive AppEvent
  | setTab (t : String)
  | rankedResponse (r : FetchResult (List Fund))

/-- One app event: a tab change re-renders and re-evaluates the effect; an ok
response applies its data (fetchRankedFunds, App.tsx lines 940-950) and
re-evaluates the effect; a failed response changes no state. -/
def appStep (s : AppState) (e : AppEvent) : AppState :=
  match e with
  | AppEvent.setTab t => runRankedEffect { s with activeTab := t }
  | AppEvent.rankedResponse (FetchResult.ok data) =>
      runRankedEffect { s with rankedFunds := data,
                               rankedInFlight := s.rankedInFlight - 1,
                               rankedLoaded := true }
  | AppEvent.rankedResponse _ => { s with rankedInFlight := s.rankedInFlight - 1 }

/-- The mounted app: top-week tab active, ranked list empty, the mount-time
effect pass already recorded its dependency pair without fetching. -/
def initialApp : AppState :=
  { activeTab := "top-week", rankedFunds := [], prevRankedDeps := ("top-week", 0),
    rankedFetchCount := 0, rankedInFlight := 0, rankedLoaded := false }

/-- A sequence of app events run from the mounted app. -/
def appRun (es : List AppEvent) : AppState :=
  es.foldl appStep initialApp

/-- One allocation row of PortfolioResults (App.tsx lines 855-890): display
rank is the list position plus one; the score badge is guarded by JS
truthiness of fundamental_score (so an exact 0 hides it), the confidence
badge only by a null check. -/
structure AllocEntry where
  rank : Nat
  name : String
  isin : String
  percent : ℚ
  amount : ℚ
  sri : Nat
  asset_class : String
  priorityBadge : Option Priority
  scoreBadge : Option ℚ
  confBadge : Option ℚ
  deriving DecidableEq

/-- The allocation row built for one allocation at list position idx. -/
def mkAllocEntry (a : FundAllocation) (idx : Nat) : AllocEntry :=
  { rank := idx + 1, name := a.fund.name, isin := a.fund.isin,
    percent := a.allocation_percent, amount := a.amount_eur,
    sri := a.fund.sri, asset_class := a.fund.asset_class,
    priorityBadge := a.fund.priority,
    scoreBadge :=
      match a.fund.fundamental_score with
      | some x => if x = 0 then none else some x
      | none => none,
    confBadge := a.fund.confidence }

/-- The allocation rows in order, numbering positions from n. -/
def allocRows : List FundAllocation → Nat → List AllocEntry
  | [], _ => []
  | a :: t, i => mkAllocEntry a i :: allocRows t (i + 1)

/-- Render output of the PortfolioResults component (App.tsx lines 768-900):
the four summary tiles, the distribution badge list, the explanation block
with its optional confidence and consensus entries, and the allocation rows. -/
structure ResultView where
  totalTile : ℚ
  fundCountTile : Nat
  avgSriTile : ℚ
  assetClassCountTile : Nat
  distributionBadges : List (String × ℚ)
  explanationText : String
  confidenceSub : Option ℚ
  consensusSub : Option String
  rows : List AllocEntry
  deriving DecidableEq

/-- Embedding of the PortfolioResults component. -/
def portfolioResults (p : PortfolioSuggestion) : ResultView :=
  { totalTile := p.total_amount, fundCountTile := p.num_funds,
    avgSriTile := p.average_sri,
    assetClassCountTile := p.asset_class_distribution.length,
    distributionBadges := p.asset_class_distribution,
    explanationText := p.explanation,
    confidenceSub := p.average_confidence,
    consensusSub := truthyStr p.consensus_summary,
    rows := allocRows p.allocations 0 }

/-- A fund with every optional field absent, used as a concrete input. -/
def blankFund : Fund :=
  { isin := "FR0000000001", name := "Fonds A", management_company := none, sri := 4,
    asset_class := "actions", description := none, available_platforms := [],
    is_standard_isin := true, label := none, metrics := none,
    fundamental_score := none, top_week_score := none, priority := none,
    confidence := none, reasoning := none, quality_score := none,
    valuation_score := none, stability_score := none, consensus_level := none }

/-- A metrics bundle whose four return fields are null while volatility is
known, used as a concrete input. -/
def volOnlyMetrics : FundMetrics :=
  { perf_1w := none, perf_1m := none, perf_3m := none, perf_1y := none,
    perf_3y := none, vol_60d := some 5, sharpe_ratio := none,
    sortino_ratio := none, max_drawdown := none }

/-- A metrics bundle with a known one-month return, used as a concrete input. -/
def sampleMetrics : FundMetrics :=
  { perf_1w := none, perf_1m := some 3, perf_3m := none, perf_1y := none,
    perf_3y := none, vol_60d := none, sharpe_ratio := none,
    sortino_ratio := none, max_drawdown := none }

/-- A concrete stats payload, used as a concrete input. -/
def sampleStats : Stats :=
  { total_funds := 10, standard_isin_funds := 8, special_funds := 2,
    sri_distribution := [("4", 10)], asset_class_distribution := [("actions", 10)] }

/-- A concrete one-fund suggestion, used as a concrete input. -/
def sampleSuggestion : PortfolioSuggestion :=
  { allocations := [{ fund := blankFund, allocation_percent := 100, amount_eur := 50000 }],
    total_amount := 50000, average_sri := 4, num_funds := 1,
    asset_class_distribution := [("actions", 100)], explanation := "ok",
    average_confidence := none, consensus_summary := none }

/-- A state whose ranked list is loaded and holds one fund, used as a
concrete input. -/
def loadedApp : AppState :=
  { activeTab := "ranked", rankedFunds := [blankFund], prevRankedDeps := ("ranked", 1),
    rankedFetchCount := 1, rankedInFlight := 0, rankedLoaded := true }

/-- Default allocation used with getD when indexing allocation lists. -/
def defaultAlloc : FundAllocation :=
  { fund := blankFund, allocation_percent := 0, amount_eur := 0 }

/-- Default row used with getD when indexing row lists. -/
def defaultEntry : AllocEntry := mkAllocEntry defaultAlloc 0

/-- The submission scenario state of claim C1: amount edited to 50000 and the
dynamique preset applied, from any starting state. -/
def submitScenarioState (s : WizardState) : WizardState :=
  handlePresetSelect dynamique (setAmount "50000" s)

/-! ### Helper lemmas -/

/-- Evaluation of the parseFloat model on the scenario amount. -/
theorem parseFloatQ_50000 : parseFloatQ "50000" = some 50000 := by
  have h : parseFloatQ "50000" =
      some ((digitsVal (List.takeWhile Char.isDigit "50000".toList) : ℚ) +
        (digitsVal ([] : List Char) : ℚ) / (10 ^ (0 : Nat) : ℚ)) := rfl
  have h2 : digitsVal (List.takeWhile Char.isDigit "50000".toList) = 50000 := rfl
  have h3 : digitsVal ([] : List Char) = 0 := rfl
  rw [h, h2, h3]
  norm_num

/-- Any bar row is either N/A or carries a width clamped into 0..100. -/
theorem barRow_cases (l : String) (o : Option ℚ) :
    (barRow l o).value = none ∨
    ∃ x w, (barRow l o).value = some (x, w) ∧ w = min 100 (max 0 x) ∧ 0 ≤ w ∧ w ≤ 100 := by
  cases o with
  | none => exact Or.inl rfl
  | some x =>
      exact Or.inr ⟨x, min 100 (max 0 x), rfl, rfl,
        le_min (by norm_num) (le_max_left 0 x), min_le_left _ _⟩

/-- The ranked effect never changes the tab or the data, and always leaves the
recorded dependency pair equal to the current one. -/
theorem runRankedEffect_base (s : AppState) :
    (runRankedEffect s).activeTab = s.activeTab ∧
    (runRankedEffect s).rankedFunds = s.rankedFunds ∧
    (runRankedEffect s).prevRankedDeps = (s.activeTab, s.rankedFunds.length) := by
  unfold runRankedEffect
  split_ifs with h1 h2
  exacts [⟨rfl, rfl, h1.symm⟩, ⟨rfl, rfl, rfl⟩, ⟨rfl, rfl, rfl⟩]

/-- With an unchanged dependency pair the ranked effect does not run. -/
theorem runRankedEffect_noop (s : AppState)
    (h : (s.activeTab, s.rankedFunds.length) = s.prevRankedDeps) :
    runRankedEffect s = s := by
  unfold runRankedEffect
  rw [if_pos h]

/-- The ranked effect never fetches while the list holds data. -/
theorem runRankedEffect_count_ne (s : AppState) (h : s.rankedFunds ≠ []) :
    (runRankedEffect s).rankedFetchCount = s.rankedFetchCount := by
  unfold runRankedEffect
  split_ifs with h1 h2
  · rfl
  · exact absurd (List.length_eq_zero.mp h2.2) h
  · rfl

/-- Updating the tab field with its current value changes nothing. -/
theorem AppState.withTab_self (s : AppState) (t : String) (h : s.activeTab = t) :
    { s with activeTab := t } = s := by
  rcases s with ⟨a, b, c, d, e, f⟩
  have h2 : a = t := h
  subst h2
  rfl

/-- A single wizard event keeps the step inside 1..3. -/
theorem wizardStep_step_bounds (s : WizardState) (e : WizardEvent) (s' : WizardState)
    (h1 : 1 ≤ s.step) (h3 : s.step ≤ 3) (he : wizardStep s e = some s') :
    1 ≤ s'.step ∧ s'.step ≤ 3 := by
  cases e with
  | next =>
      simp only [wizardStep, Option.some.injEq] at he
      subst he
      split_ifs with h
      · refine ⟨?_, ?_⟩
        · show 1 ≤ s.step + 1
          omega
        · show s.step + 1 ≤ 3
          omega
      · exact ⟨h1, h3⟩
  | back =>
      by_cases h : s.step = 1
      · simp [wizardStep, handleBack, h] at he
      · simp only [wizardStep, handleBack, if_neg h, Option.some.injEq] at he
        subst he
        refine ⟨?_, ?_⟩
        · show 1 ≤ s.step - 1
          omega
        · show s.step - 1 ≤ 3
          omega
  | preset p =>
      simp only [wizardStep, Option.some.injEq] at he
      subst he
      exact ⟨h1, h3⟩
  | risk v =>
      simp only [wizardStep, Option.some.injEq] at he
      subst he
      exact ⟨h1, h3⟩
  | amountEdit a =>
      simp only [wizardStep, Option.some.injEq] at he
      subst he
      exact ⟨h1, h3⟩
  | horizonSel h =>
      simp only [wizardStep, Option.some.injEq] at he
      subst he
      exact ⟨h1, h3⟩
  | submitDone r =>
      simp only [wizardStep, Option.some.injEq] at he
      subst he
      cases r <;> exact ⟨h1, h3⟩

/-- Any event sequence keeps the step inside 1..3. -/
theorem wizardRun_bounds (es : List WizardEvent) (s : WizardState)
    (h1 : 1 ≤ s.step) (h3 : s.step ≤ 3) (s' : WizardState)
    (h : wizardRun s es = some s') : 1 ≤ s'.step ∧ s'.step ≤ 3 := by
  induction es generalizing s with
  | nil =>
      simp only [wizardRun, Option.some.injEq] at h
      subst h
      exact ⟨h1, h3⟩
  | cons e t ih =>
      rw [wizardRun] at h
      cases hse : wizardStep s e with
      | none => rw [hse] at h; cases h
      | some u =>
          rw [hse] at h
          obtain ⟨g1, g3⟩ := wizardStep_step_bounds s e u h1 h3 hse
          exact ih u g1 g3 h

/-- The length of the allocation rows equals that of the allocation list. -/
theorem allocRows_length (l : List FundAllocation) (n : Nat) :
    (allocRows l n).length = l.length := by
  induction l generalizing n with
  | nil => rfl
  | cons a t ih => simp [allocRows, ih]

/-- The i-th allocation row is built from the i-th allocation at number n+i. -/
theorem allocRows_getD (l : List FundAllocation) (n i : Nat) (h : i < l.length) :
    (allocRows l n).getD i defaultEntry = mkAllocEntry (l.getD i defaultAlloc) (n + i) := by
  induction l generalizing n i with
  | nil => simp at h
  | cons a t ih =>
      cases i with
      | zero => simp [allocRows]
      | succ j =>
          have hj : j < t.length := by simpa using h
          simp only [allocRows, List.getD_cons_succ]
          rw [ih (n + 1) j hj]
          congr 1
          omega

/-! ### Claims -/

/-- C4: applying the equilibre preset atomically sets the risk slider to 4,
the horizon to medium and the selected preset to equilibre; a subsequent
manual risk change to 5 sets the slider to 5, clears the selected preset and
leaves the horizon unchanged. -/
theorem preset_atomic_then_manual_risk (s : WizardState) :
    (handlePresetSelect equilibre s).targetSri = [4] ∧
    (handlePresetSelect equilibre s).horizon = "medium" ∧
    (handlePresetSelect equilibre s).selectedPreset = some "equilibre" ∧
    (setRiskManual [5] (handlePresetSelect equilibre s)).targetSri = [5] ∧
    (setRiskManual [5] (handlePresetSelect equilibre s)).selectedPreset = none ∧
    (setRiskManual [5] (handlePresetSelect equilibre s)).horizon =
      (handlePresetSelect equilibre s).horizon :=
  ⟨rfl, rfl, rfl, rfl, rfl, rfl⟩

/-- C7: the highlight tier of a fund card is a function of the rank alone —
independent of the fund and of the view mode — with rank 1 gold, rank 2
silver, rank 3 bronze and every other rank none. -/
theorem tier_pure_function_of_rank :
    (∀ (f g : Fund) (r : Option Nat) (m m' : ViewMode) (e e' : Bool),
      (fundCard f r m e).tier = (fundCard g r m' e').tier) ∧
    (∀ (f : Fund) (m : ViewMode) (e : Bool),
      (fundCard f (some 1) m e).tier = Tier.gold ∧
      (fundCard f (some 2) m e).tier = Tier.silver ∧
      (fundCard f (some 3) m e).tier = Tier.bronze) ∧
    (∀ r : Nat, r ≠ 1 → r ≠ 2 → r ≠ 3 → fundCardTier (some r) = Tier.none) := by
  refine ⟨fun f g r m m' e e' => rfl, fun f m e => ⟨rfl, rfl, rfl⟩, ?_⟩
  intro r hr1 hr2 hr3
  match r with
  | 0 => rfl
  | 1 => exact absurd rfl hr1
  | 2 => exact absurd rfl hr2
  | 3 => exact absurd rfl hr3
  | n + 4 => rfl

/-- Witness for C7 at rank 4. -/
theorem tier_pure_function_of_rank_witness : fundCardTier (some 4) = Tier.none :=
  tier_pure_function_of_rank.2.2 4 (by decide) (by decide) (by decide)

/-- C10: in an allocation row the score badge is shown exactly for a non-null,
non-zero fundamental score — an exact 0 shows no badge — while a confidence
of exactly 0 is still shown as a badge. -/
theorem score_badge_truthiness (a : FundAllocation) (i : Nat) (x : ℚ) :
    ((mkAllocEntry a i).scoreBadge = some x ↔
      a.fund.fundamental_score = some x ∧ x ≠ 0) ∧
    (mkAllocEntry { a with fund := { a.fund with fundamental_score := some 0 } } i).scoreBadge
      = none ∧
    (mkAllocEntry { a with fund := { a.fund with confidence := some 0 } } i).confBadge
      = some 0 ∧
    (mkAllocEntry a i).confBadge = a.fund.confidence := by
  refine ⟨?_, ?_, rfl, rfl⟩
  · show (match a.fund.fundamental_score with
      | some y => if y = 0 then none else some y
      | none => none) = some x ↔ a.fund.fundamental_score = some x ∧ x ≠ 0
    cases hf : a.fund.fundamental_score with
    | none => simp
    | some y =>
        by_cases hy : y = 0
        · subst hy
          simp only [if_pos rfl]
          constructor
          · intro h; cases h
          · rintro ⟨h, hne⟩
            exact absurd (Option.some.inj h).symm hne
        · simp only [if_neg hy, Option.some.injEq]
          constructor
          · rintro rfl; exact ⟨rfl, hy⟩
          · rintro ⟨h, _⟩; exact h
  · show (match (some 0 : Option ℚ) with
      | some y => if y = 0 then none else some y
      | none => none) = (none : Option ℚ)
    simp

/-- C6: when quality, valuation and stability are all null the profile shows
the data-unavailable marker and no bars; with at least one non-null
sub-score exactly three rows are shown, each either N/A or carrying a bar
width clamped into 0..100. -/
theorem brain_profile_rows (q v s : Option ℚ) :
    (q = none ∧ v = none ∧ s = none → brainProfile q v s = BrainView.unavailable) ∧
    (¬(q = none ∧ v = none ∧ s = none) →
      ∃ rows, brainProfile q v s = BrainView.bars rows ∧ rows.length = 3 ∧
        ∀ r ∈ rows, r.value = none ∨
          ∃ x w, r.value = some (x, w) ∧ w = min 100 (max 0 x) ∧ 0 ≤ w ∧ w ≤ 100) := by
  constructor
  · intro h
    simp [brainProfile, h.1, h.2.1, h.2.2]
  · intro h
    refine ⟨[barRow "Gestion" q, barRow "Valo" v, barRow "Stabilite" s], ?_, rfl, ?_⟩
    · simp [brainProfile, h]
    · intro r hr
      simp only [List.mem_cons, List.not_mem_nil, or_false] at hr
      rcases hr with rfl | rfl | rfl
      · exact barRow_cases _ q
      · exact barRow_cases _ v
      · exact barRow_cases _ s

/-- Witness for C6 with only the quality sub-score known. -/
theorem brain_profile_rows_witness :
    ∃ rows, brainProfile (some 50) none none = BrainView.bars rows ∧ rows.length = 3 ∧
      ∀ r ∈ rows, r.value = none ∨
        ∃ x w, r.value = some (x, w) ∧ w = min 100 (max 0 x) ∧ 0 ≤ w ∧ w ≤ 100 :=
  (brain_profile_rows (some 50) none none).2 (by simp)

/-- C1: after editing the amount to 50000 and applying the dynamique preset,
submit posts the body amount 50000, horizon long, target_sri 6,
sri_tolerance 1; an ok response completes the wizard carrying the returned
suggestion; a non-ok response and a network failure both set the generic
localized message while leaving every step value unchanged and the
submission no longer pending, and an unchanged re-submission issues an
identical request. -/
theorem wizard_submit_scenario (s : WizardState) (d : PortfolioSuggestion) :
    suggestRequestOf (submitScenarioState s) =
      { amount := some 50000, horizon := "long", target_sri := some 6, sri_tolerance := 1 } ∧
    handleSubmitResult (submitScenarioState s) (FetchResult.ok d) =
      ({ submitScenarioState s with loading := false, error := none }, some d) ∧
    handleSubmitResult (submitScenarioState s) FetchResult.httpError =
      ({ submitScenarioState s with loading := false, error := some genericSubmitError },
        none) ∧
    handleSubmitResult (submitScenarioState s) FetchResult.networkFailure =
      ({ submitScenarioState s with loading := false, error := some genericSubmitError },
        none) ∧
    (handleSubmitResult (submitScenarioState s) FetchResult.httpError).1.step =
      (submitScenarioState s).step ∧
    (handleSubmitResult (submitScenarioState s) FetchResult.httpError).1.amount =
      (submitScenarioState s).amount ∧
    (handleSubmitResult (submitScenarioState s) FetchResult.httpError).1.horizon =
      (submitScenarioState s).horizon ∧
    (handleSubmitResult (submitScenarioState s) FetchResult.httpError).1.targetSri =
      (submitScenarioState s).targetSri ∧
    (handleSubmitResult (submitScenarioState s) FetchResult.httpError).1.selectedPreset =
      (submitScenarioState s).selectedPreset ∧
    (handleSubmitResult (submitScenarioState s) FetchResult.httpError).1.loading = false ∧
    suggestRequestOf (handleSubmitResult (submitScenarioState s) FetchResult.httpError).1 =
      suggestRequestOf (submitScenarioState s) := by
  refine ⟨?_, rfl, rfl, rfl, rfl, rfl, rfl, rfl, rfl, rfl, rfl⟩
  show ({ amount := parseFloatQ "50000", horizon := "long",
          target_sri := some 6, sri_tolerance := 1 } : SuggestRequest) = _
  rw [parseFloatQ_50000]

/-- C3 fails as stated: when the top-of-week request fails at the network
level while the stats request produces a successful response, the joint
await throws and the stats result is not applied either. -/
theorem initial_fetch_isolation_counterexample :
    fetchData FetchResult.networkFailure (FetchResult.ok sampleStats) = (none, none) := rfl

/-- C3 amended: failures are isolated at the HTTP level only — when both
requests complete to responses each body is applied exactly when its own
response is ok, but a network failure of either request prevents both
results from being applied. -/
theorem initial_fetch_isolation_amended :
    (∀ (tops : List Fund) (st : Stats),
      fetchData (FetchResult.ok tops) (FetchResult.ok st) = (some tops, some st)) ∧
    (∀ tops : List Fund,
      fetchData (FetchResult.ok tops) FetchResult.httpError = (some tops, none)) ∧
    (∀ st : Stats,
      fetchData FetchResult.httpError (FetchResult.ok st) = (none, some st)) ∧
    fetchData FetchResult.httpError FetchResult.httpError = (none, none) ∧
    (∀ r : FetchResult Stats, fetchData FetchResult.networkFailure r = (none, none)) ∧
    (∀ r : FetchResult (List Fund),
      fetchData r FetchResult.networkFailure = (none, none)) := by
  refine ⟨fun tops st => rfl, fun tops => rfl, fun st => rfl, rfl, ?_, ?_⟩
  · intro r; cases r <;> rfl
  · intro r; cases r <;> rfl

/-- C5 fails as stated: in advanced mode with the four return fields null but
volatility known, the strip collapses to the single unavailable marker even
though a selected field (volatility) is non-null — volatility is not shown. -/
theorem perf_strip_vol_only_counterexample :
    performanceStrip (some volOnlyMetrics) ViewMode.advanced = PerfView.unavailable ∧
    volOnlyMetrics.vol_60d ≠ none := by
  refine ⟨by decide, by decide⟩

/-- C5 amended: the unavailable marker is shown exactly when the metrics
bundle is absent or the return fields listed for the mode (two in simple
mode, four in advanced mode — volatility is not consulted by the guard) are
all null; otherwise the slots shown are labelled exactly with the mode's
fields, including the volatility slot in advanced mode. -/
theorem performance_strip_fields (m : FundMetrics) (mode : ViewMode) :
    performanceStrip none mode = PerfView.unavailable ∧
    (performanceStrip (some m) mode = PerfView.unavailable ↔
      ∀ it ∈ perfItems m mode, it.2 = none) ∧
    ((∃ it ∈ perfItems m mode, it.2 ≠ none) →
      stripLabels (performanceStrip (some m) mode) = some (modeLabels mode)) := by
  refine ⟨rfl, ?_, ?_⟩
  · by_cases h : (perfItems m mode).any (fun it => it.2.isSome)
    · simp only [performanceStrip, if_pos h]
      constructor
      · intro hs; cases hs
      · intro hall
        exfalso
        rw [List.any_eq_true] at h
        obtain ⟨it, hmem, hsome⟩ := h
        rw [hall it hmem] at hsome
        cases hsome
    · simp only [performanceStrip, if_neg h]
      refine iff_of_true (by trivial) ?_
      intro it hmem
      rw [List.any_eq_true] at h
      by_contra hne
      exact h ⟨it, hmem, Option.isSome_iff_ne_none.mpr hne⟩
  · intro hex
    have h : (perfItems m mode).any (fun it => it.2.isSome) = true := by
      rw [List.any_eq_true]
      obtain ⟨it, hmem, hne⟩ := hex
      exact ⟨it, hmem, Option.isSome_iff_ne_none.mpr hne⟩
    simp only [performanceStrip, if_pos h, stripLabels, List.map_append]
    cases mode <;> rfl

/-- Witness for C5 amended, in advanced mode with a known one-month return. -/
theorem performance_strip_fields_witness :
    stripLabels (performanceStrip (some sampleMetrics) ViewMode.advanced) =
      some (modeLabels ViewMode.advanced) :=
  (performance_strip_fields sampleMetrics ViewMode.advanced).2.2 (by decide)

/-- C8 fails as stated: the next action from step 1 advances to step 2 even
when the amount is the empty string, so no non-empty-numeric validation
guards the transition. -/
theorem step1_next_no_validation_counterexample :
    (setAmount "" initialWizard).amount = "" ∧
    handleNext (setAmount "" initialWizard) =
      some { setAmount "" initialWizard with step := 2 } :=
  ⟨rfl, rfl⟩

/-- C8 amended: from step 1 the back action maps to cancel; the next action is
unavailable at step 3 and every state reachable from the initial wizard
state keeps its step between 1 and 3; the next action from step 1 advances
to step 2 unconditionally, with no validation of the amount at all. -/
theorem wizard_navigation_amended :
    (∀ s : WizardState, s.step = 1 → handleBack s = NavOutcome.closed) ∧
    (∀ s : WizardState, s.step = 3 → handleNext s = none) ∧
    (∀ s : WizardState, s.step = 1 → handleNext s = some { s with step := 2 }) ∧
    (∀ (es : List WizardEvent) (s' : WizardState),
      wizardRun initialWizard es = some s' → 1 ≤ s'.step ∧ s'.step ≤ 3) := by
  refine ⟨?_, ?_, ?_, ?_⟩
  · intro s h
    simp [handleBack, h]
  · intro s h
    simp [handleNext, h]
  · intro s h
    rw [handleNext, if_pos (by omega : s.step < 3), h]
  · intro es s' h
    exact wizardRun_bounds es initialWizard (by decide) (by decide) s' h

/-- Witness for C8 amended at the initial state. -/
theorem wizard_navigation_amended_witness :
    handleBack initialWizard = NavOutcome.closed ∧
    handleNext { initialWizard with step := 3 } = none ∧
    handleNext initialWizard = some { initialWizard with step := 2 } ∧
    (1 ≤ initialWizard.step ∧ initialWizard.step ≤ 3) :=
  ⟨wizard_navigation_amended.1 initialWizard rfl,
   wizard_navigation_amended.2.1 { initialWizard with step := 3 } rfl,
   wizard_navigation_amended.2.2.1 initialWizard rfl,
   wizard_navigation_amended.2.2.2 [] initialWizard rfl⟩

/-- C2 fails as stated: toggling away from the ranked tab and back while the
first fetch is still outstanding issues a second fetch, so two fetches for
the same list are in flight at once; and after an empty payload has been
loaded, the same toggle re-fetches a loaded list without any invalidation. -/
theorem ranked_refetch_counterexample :
    (appRun [AppEvent.setTab "ranked", AppEvent.setTab "top-week",
             AppEvent.setTab "ranked"]).rankedInFlight = 2 ∧
    (appRun [AppEvent.setTab "ranked",
             AppEvent.rankedResponse (FetchResult.ok []),
             AppEvent.setTab "top-week"]).rankedLoaded = true ∧
    (appRun [AppEvent.setTab "ranked",
             AppEvent.rankedResponse (FetchResult.ok []),
             AppEvent.setTab "top-week",
             AppEvent.setTab "ranked"]).rankedFetchCount = 2 := by
  refine ⟨by decide, by decide, by decide⟩

/-- C2 amended: activation is idempotent, so two activations in immediate
succession issue exactly one fetch, and no tab change fetches while the
ranked list holds at least one fund; but the guard is list emptiness rather
than load status, so switching to the ranked tab from another tab fetches
whenever the list is empty — also while a fetch is still outstanding or
after an empty payload was loaded. -/
theorem ranked_activation_amended :
    (∀ s : AppState,
      appStep (appStep s (AppEvent.setTab "ranked")) (AppEvent.setTab "ranked") =
        appStep s (AppEvent.setTab "ranked")) ∧
    (∀ (s : AppState) (t : String), s.rankedFunds ≠ [] →
      (appStep s (AppEvent.setTab t)).rankedFetchCount = s.rankedFetchCount) ∧
    (∀ s : AppState, s.prevRankedDeps = (s.activeTab, s.rankedFunds.length) →
      s.activeTab ≠ "ranked" → s.rankedFunds = [] →
      (appStep s (AppEvent.setTab "ranked")).rankedFetchCount = s.rankedFetchCount + 1) := by
  refine ⟨?_, ?_, ?_⟩
  · intro s
    show runRankedEffect
        { runRankedEffect { s with activeTab := "ranked" } with activeTab := "ranked" } =
      runRankedEffect { s with activeTab := "ranked" }
    have hb := runRankedEffect_base { s with activeTab := "ranked" }
    have ht : (runRankedEffect { s with activeTab := "ranked" }).activeTab = "ranked" := hb.1
    have hf : (runRankedEffect { s with activeTab := "ranked" }).rankedFunds =
        s.rankedFunds := hb.2.1
    have hp : (runRankedEffect { s with activeTab := "ranked" }).prevRankedDeps =
        ("ranked", s.rankedFunds.length) := hb.2.2
    rw [AppState.withTab_self _ _ ht]
    apply runRankedEffect_noop
    rw [ht, hf, hp]
  · intro s t h
    exact runRankedEffect_count_ne { s with activeTab := t } h
  · intro s hp ht he
    show (runRankedEffect { s with activeTab := "ranked" }).rankedFetchCount =
      s.rankedFetchCount + 1
    unfold runRankedEffect
    split_ifs with h1 h2
    · exfalso
      have h1x : ("ranked", s.rankedFunds.length) = s.prevRankedDeps := h1
      rw [hp] at h1x
      exact ht (congrArg Prod.fst h1x).symm
    · rfl
    · exfalso
      refine h2 ⟨rfl, ?_⟩
      show s.rankedFunds.length = 0
      rw [he]
      rfl

/-- Witness for C2 amended: idempotence at the mounted app, no fetch on a
state holding data, one fetch on first activation from the mounted app. -/
theorem ranked_activation_amended_witness :
    (appStep (appStep initialApp (AppEvent.setTab "ranked")) (AppEvent.setTab "ranked") =
      appStep initialApp (AppEvent.setTab "ranked")) ∧
    (appStep loadedApp (AppEvent.setTab "top-week")).rankedFetchCount =
      loadedApp.rankedFetchCount ∧
    (appStep initialApp (AppEvent.setTab "ranked")).rankedFetchCount =
      initialApp.rankedFetchCount + 1 :=
  ⟨ranked_activation_amended.1 initialApp,
   ranked_activation_amended.2.1 loadedApp "top-week" (by simp [loadedApp]),
   ranked_activation_amended.2.2 initialApp rfl (by decide) rfl⟩

/-- C9 fails as stated: an allocation row does not re-use the fund-card
presentation — two funds differing only in a sub-score get the same
allocation row although their fund-card presentations differ. -/
theorem alloc_entry_not_fundcard_counterexample :
    mkAllocEntry { fund := blankFund, allocation_percent := 60, amount_eur := 30000 } 0 =
      mkAllocEntry { fund := { blankFund with quality_score := some 50 },
                     allocation_percent := 60, amount_eur := 30000 } 0 ∧
    fundCard blankFund (some 1) ViewMode.simple false ≠
      fundCard { blankFund with quality_score := some 50 } (some 1) ViewMode.simple false := by
  refine ⟨rfl, by decide⟩

/-- C9 amended: the result view is a pure transformation yielding the four
summary tiles (total amount, fund count, average SRI, distinct asset-class
count), the asset-class distribution badge list, the explanation block with
its optional confidence and consensus entries, and an ordered allocation
list whose i-th row is the compact allocation entry (rank i+1, name, ISIN,
percent, absolute amount, SRI, asset-class and priority badges, optional
score and confidence badges) of the i-th constituent fund — not the full
fund-card presentation. -/
theorem portfolio_results_amended (p : PortfolioSuggestion) :
    (portfolioResults p).totalTile = p.total_amount ∧
    (portfolioResults p).fundCountTile = p.num_funds ∧
    (portfolioResults p).avgSriTile = p.average_sri ∧
    (portfolioResults p).assetClassCountTile = p.asset_class_distribution.length ∧
    (portfolioResults p).distributionBadges = p.asset_class_distribution ∧
    (portfolioResults p).explanationText = p.explanation ∧
    (portfolioResults p).confidenceSub = p.average_confidence ∧
    (portfolioResults p).consensusSub = truthyStr p.consensus_summary ∧
    (portfolioResults p).rows.length = p.allocations.length ∧
    (∀ i, i < p.allocations.length →
      (portfolioResults p).rows.getD i defaultEntry =
        mkAllocEntry (p.allocations.getD i defaultAlloc) i ∧
      ((portfolioResults p).rows.getD i defaultEntry).rank = i + 1) := by
  refine ⟨rfl, rfl, rfl, rfl, rfl, rfl, rfl, rfl, allocRows_length _ 0, ?_⟩
  intro i h
  have hg := allocRows_getD p.allocations 0 i h
  rw [Nat.zero_add] at hg
  refine ⟨hg, ?_⟩
  rw [show (portfolioResults p).rows = allocRows p.allocations 0 from rfl, hg]
  rfl

/-- Witness for C9 amended at a concrete one-fund suggestion. -/
theorem portfolio_results_amended_witness :
    (portfolioResults sampleSuggestion).rows.getD 0 defaultEntry =
      mkAllocEntry (sampleSuggestion.allocations.getD 0 defaultAlloc) 0 ∧
    ((portfolioResults sampleSuggestion).rows.getD 0 defaultEntry).rank = 0 + 1 :=
  (portfolio_results_amended sampleSuggestion).2.2.2.2.2.2.2.2.2 0 (by decide)

end HiTrade

